import Mathlib

/-
Verification development for the `peppa` Slack self-service bot.

The repository has three Python source files:
  * `src/bot/src/slack_bot/blocks.py`   — the Action Registry (`load_actions`, `action_data`);
  * `src/bot/src/slack_bot/main.py`     — the Dialog Controller and Job Trigger
    (`open_modal`, `handle_initial_modal_submission`, `handle_updated_modal_submission`,
     `create_action_modal`, `execute_action`);
  * `src/bot/src/slack_notifier/main.py` — the Notifier (`lambda_handler`,
     `send_direct_message`, `send_thread_reply`).

The embedding below is shallow: JSON values (Python dicts/lists as produced by
`json.load` and consumed by the Slack SDK) become the inductive `Json`; Python
dict operations become association-list operations with Python's first-match /
replace-in-place semantics; calls to external services (Slack `chat_postMessage`,
CodeBuild `start_build`, Secrets Manager) are parametrised by oracles giving each
call's outcome, and every externally visible call is recorded in an effect trace.
Raised exceptions are modelled by `Except String`, the error string standing for
Python's `str(e)`.
-/

/-! ## JSON values -/

/-- JSON values, as produced by `json.load` and passed around as Python dicts and
lists. Objects keep their fields as an ordered association list (Python dicts are
ordered); numbers are restricted to integers, the only numeric literals these
payloads carry. -/
inductive Json where
  | null
  | bool (b : Bool)
  | num (n : Int)
  | str (s : String)
  | arr (xs : List Json)
  | obj (fields : List (String × Json))

/-- Lower-case hexadecimal digit, as emitted by Python `json.dumps` escapes. -/
def hexDigit (n : Nat) : Char :=
  if n < 10 then Char.ofNat (48 + n) else Char.ofNat (87 + n)

/-- Four-digit lower-case hexadecimal rendering of `n % 0x10000`. -/
def hex4 (n : Nat) : String :=
  String.mk [hexDigit (n / 4096 % 16), hexDigit (n / 256 % 16), hexDigit (n / 16 % 16),
    hexDigit (n % 16)]

/-- Python `json.dumps` escape for a character outside the printable ASCII range
(`ensure_ascii=True` behaviour, surrogate pairs above the basic plane). -/
def unicodeEscape (c : Char) : String :=
  let n := c.val.toNat
  if n < 65536 then "\\u" ++ hex4 n
  else
    let v := n - 65536
    "\\u" ++ hex4 (55296 + v / 1024) ++ "\\u" ++ hex4 (56320 + v % 1024)

/-- Per-character escaping of Python `json.dumps` with its default
`ensure_ascii=True`: quote, backslash and the named control escapes, `\uXXXX`
for the remaining characters outside `0x20..0x7e`. -/
def jsonEscapeChar (c : Char) : String :=
  if c = '"' then "\\\""
  else if c = '\\' then "\\\\"
  else if c = '\n' then "\\n"
  else if c = '\t' then "\\t"
  else if c = '\r' then "\\r"
  else if c.val = 8 then "\\b"
  else if c.val = 12 then "\\f"
  else if c.val < 32 || c.val > 126 then unicodeEscape c
  else String.singleton c

/-- JSON string literal as rendered by Python `json.dumps`. -/
def jsonEscapeString (s : String) : String :=
  "\"" ++ String.join (s.data.map jsonEscapeChar) ++ "\""

mutual

/-- Model of Python `json.dumps` with default settings: separators `", "` and
`": "`, `ensure_ascii=True`. Used for the `REQUEST_BODY` job parameter. -/
def Json.dumps : Json → String
  | .null => "null"
  | .bool true => "true"
  | .bool false => "false"
  | .num n => toString n
  | .str s => jsonEscapeString s
  | .arr xs => "[" ++ Json.dumpsArr xs ++ "]"
  | .obj fs => "\x7b" ++ Json.dumpsObj fs ++ "\x7d"

/-- Comma-separated rendering of a JSON array's elements. -/
def Json.dumpsArr : List Json → String
  | [] => ""
  | [x] => Json.dumps x
  | x :: xs => Json.dumps x ++ ", " ++ Json.dumpsArr xs

/-- Comma-separated rendering of a JSON object's fields. -/
def Json.dumpsObj : List (String × Json) → String
  | [] => ""
  | [(k, v)] => jsonEscapeString k ++ ": " ++ Json.dumps v
  | (k, v) :: fs => jsonEscapeString k ++ ": " ++ Json.dumps v ++ ", " ++ Json.dumpsObj fs

end

/-! ## Python dict operations on association lists -/

/-- Python dict lookup (first matching key; a dict built by single assignments
has distinct keys, so this is the unique match). -/
def dictGet {α : Type} (d : List (String × α)) (k : String) : Option α :=
  match d with
  | [] => none
  | (k1, v) :: rest => if k1 = k then some v else dictGet rest k

/-- Python dict assignment `d[k] = v`: replaces the value in place when the key
is present, otherwise appends the new entry (insertion order is preserved). -/
def dictSet {α : Type} (d : List (String × α)) (k : String) (v : α) : List (String × α) :=
  match d with
  | [] => [(k, v)]
  | (k1, v1) :: rest => if k1 = k then (k1, v) :: rest else (k1, v1) :: dictSet rest k v

/-- Python `dict.copy()`: a fresh top-level dict holding the same entries. In
this pure embedding the copy is the identity on the value; its significance is
that in `create_action_modal` the key assignments below it are performed on the
copy, so the stored template is returned unchanged. -/
def dictCopy {α : Type} (d : List (String × α)) : List (String × α) := d

/-- Python dict subscription `j[k]`: `KeyError` when the key is absent
(`str(KeyError(k))` is the key in single quotes), `TypeError` when the value is
not a dict. -/
def Json.getItem (j : Json) (k : String) : Except String Json :=
  match j with
  | .obj fs =>
    match dictGet fs k with
    | some v => Except.ok v
    | none => Except.error ("\x27" ++ k ++ "\x27")
  | _ => Except.error "TypeError: value is not subscriptable"

/-- Subscription `j[k]` expecting a string result. On the code's reachable
inputs (Slack payloads, CodeBuild responses) these fields are strings; a
non-string value is mapped to an error, standing for the `TypeError` the
downstream SDK call would raise on it. -/
def Json.getItemStr (j : Json) (k : String) : Except String String :=
  match j.getItem k with
  | Except.ok (Json.str s) => Except.ok s
  | Except.ok _ => Except.error ("TypeError: expected a string at key " ++ k)
  | Except.error e => Except.error e

/-- Python `j.get(k, default)` for a string-valued field, as used for
`request_body.get("trigger_id", "")`. -/
def Json.getStrD (j : Json) (k : String) (d : String) : String :=
  match j with
  | .obj fs =>
    match dictGet fs k with
    | some (Json.str s) => s
    | some _ => d
    | none => d
  | _ => d

/-! ## Dialog Controller and Job Trigger (`src/bot/src/slack_bot/main.py`) -/

/-- Environment configuration read through `os.environ` by the bot. -/
structure BotEnv where
  bot_name : Option String

/-- Outcomes of the external calls the bot issues, supplied as oracles:
`chat_postMessage channel text` is Slack's message post, `start_build
projectName environmentVariablesOverride` is CodeBuild's `start_build`. An
`Except.error e` outcome models the call raising, with `e` standing for
`str(e)` of the raised exception. -/
structure SlackOracle where
  chat_postMessage : String → String → Except String Json
  start_build : String → List (String × String) → Except String Json

/-- Externally visible calls made while handling one event, in order. -/
inductive Effect where
  | ack
  | ackErrors (errors : List (String × String))
  | ackUpdate (view : Json)
  | chatPostMessage (channel : String) (text : String)
  | startBuild (projectName : String) (environmentVariablesOverride : List (String × String))
  | logError (message : String) (exc_info : Bool)

/-- The `environmentVariablesOverride` parameter list built by `execute_action`
(all entries have type `PLAINTEXT`, elided here). -/
def code_build_env_vars (request_body : Json) (user_id user_name : String) :
    List (String × String) :=
  [("REQUEST_BODY", Json.dumps request_body),
   ("TRIGGER_ID", request_body.getStrD "trigger_id" ""),
   ("USER_ID", user_id),
   ("USER_NAME", user_name)]

/-- Translation of `execute_action` (main.py lines 346-399): computes the
project name from the `BOT_NAME` environment variable (default `"senora"`) and
the action name, builds the parameter list, and calls CodeBuild `start_build`.
Returns the effect trace of the call together with the normal result
(`build_info`, including the `id` read by the logging line) or the propagated
exception. Extraction of `request_body["user"]["id"]` / `["name"]` happens
while the parameter list is evaluated, before the call is issued. -/
def execute_action (env : BotEnv) (o : SlackOracle) (action_name : String)
    (request_body : Json) : List Effect × Except String Json :=
  let project_name := env.bot_name.getD "senora" ++ "-" ++ action_name
  match request_body.getItem "user" with
  | Except.error e => ([], Except.error e)
  | Except.ok user =>
    match user.getItemStr "id" with
    | Except.error e => ([], Except.error e)
    | Except.ok user_id =>
      match user.getItemStr "name" with
      | Except.error e => ([], Except.error e)
      | Except.ok user_name =>
        let env_vars := code_build_env_vars request_body user_id user_name
        match o.start_build project_name env_vars with
        | Except.error e =>
          ([Effect.startBuild project_name env_vars,
            Effect.logError ("Failed to start CodeBuild project: " ++ e) true],
           Except.error e)
        | Except.ok response =>
          match response.getItem "build" with
          | Except.error e => ([Effect.startBuild project_name env_vars], Except.error e)
          | Except.ok build_info =>
            match build_info.getItemStr "id" with
            | Except.error e => ([Effect.startBuild project_name env_vars], Except.error e)
            | Except.ok _build_id =>
              ([Effect.startBuild project_name env_vars], Except.ok build_info)

/-- The immediate acknowledgment text posted on final submission. -/
def received_text (action_name : String) : String :=
  "✅ Your request for *" ++ action_name ++ "* has been received and is being processed..."

/-- The confirmation text posted after a successful job trigger, carrying the
build id (the job handle). -/
def running_text (action_name build_id : String) : String :=
  "🚀 *" ++ action_name ++ "* is now running!\nBuild ID: `" ++ build_id ++
    "`\nYou\x27ll be notified when it completes."

/-- The user-facing failure text of the final-submission handler: a fixed
template around `str(e)`, the one-line description of the caught exception. -/
def failure_text (e : String) : String :=
  "❌ Failed to execute action: " ++ e ++ "\nPlease contact support if this continues."

/-- The `body["user"]["id"]` extraction used by the final-submission handler. -/
def body_user_id (body : Json) : Except String String :=
  match body.getItem "user" with
  | Except.error e => Except.error e
  | Except.ok user => user.getItemStr "id"

/-- The `except` branch of `handle_updated_modal_submission` (main.py lines
190-200): logs the error with full traceback (`exc_info=True`), then
best-effort posts the generic failure text to the user — the inner `try`
swallows both a failure of that post and a `KeyError` while evaluating
`body["user"]["id"]`. -/
def updated_except_branch (body : Json) (e : String) : List Effect :=
  Effect.logError ("Error executing action: " ++ e) true ::
  (match body_user_id body with
   | Except.ok user_id => [Effect.chatPostMessage user_id (failure_text e)]
   | Except.error _ => [])

/-- Translation of `handle_updated_modal_submission` (main.py lines 156-200):
`ack()` first, then extract the correlation token from `view["private_metadata"]`
and the user id, post the received-acknowledgment, call `execute_action`, and
post the confirmation carrying `build_info["id"]`; any exception lands in
`updated_except_branch`. Note the handler never consults `action_data`. -/
def handle_updated_modal_submission (env : BotEnv) (o : SlackOracle)
    (body view : Json) : List Effect :=
  Effect.ack ::
  (match view.getItemStr "private_metadata" with
   | Except.error e => updated_except_branch body e
   | Except.ok action_name =>
     match body_user_id body with
     | Except.error e => updated_except_branch body e
     | Except.ok user_id =>
       Effect.chatPostMessage user_id (received_text action_name) ::
       (match o.chat_postMessage user_id (received_text action_name) with
        | Except.error e => updated_except_branch body e
        | Except.ok _ =>
          let r := execute_action env o action_name body
          r.1 ++
          (match r.2 with
           | Except.error e => updated_except_branch body e
           | Except.ok build_info =>
             match build_info.getItemStr "id" with
             | Except.error e => updated_except_branch body e
             | Except.ok build_id =>
               Effect.chatPostMessage user_id (running_text action_name build_id) ::
               (match o.chat_postMessage user_id (running_text action_name build_id) with
                | Except.error e => updated_except_branch body e
                | Except.ok _ => []))))

/-- Translation of `create_action_modal` (main.py lines 284-298) in
state-passing form: the second component of the result is the registry mapping
after the call. The source copies the stored template (`.copy()`) and performs
the two key assignments on the copy, so the registry is returned unchanged.
`none` covers the impossible cases the source would raise on (absent key, a
template without dict structure). -/
def create_action_modal (action_data : List (String × Json)) (action_name : String) :
    Option (Json × List (String × Json)) :=
  match dictGet action_data action_name with
  | some (Json.obj fields) =>
    let action_modal := dictCopy fields
    let with_callback := dictSet action_modal "callback_id" (Json.str "updated_modal")
    let with_metadata := dictSet with_callback "private_metadata" (Json.str action_name)
    some (Json.obj with_metadata, action_data)
  | _ => none

/-- The `view["state"]["values"]["action_select_block"]["action_select"]
["selected_option"]["value"]` extraction of the selection-step handler. -/
def extract_selected_action (view : Json) : Except String String := do
  let st ← view.getItem "state"
  let values ← st.getItem "values"
  let block ← values.getItem "action_select_block"
  let element ← block.getItem "action_select"
  let selected ← element.getItem "selected_option"
  Json.getItemStr selected "value"

/-- Translation of `handle_initial_modal_submission` (main.py lines 119-154):
extract the selected action; when it is not a key of `action_data`, acknowledge
with a field-level validation error on `action_select_block`; otherwise
acknowledge with the `update` response carrying the action-specific modal. Any
exception (including a malformed view) lands in the generic field-level error
of the handler's `except` branch. -/
def handle_initial_modal_submission (action_data : List (String × Json))
    (view : Json) : List Effect :=
  match extract_selected_action view with
  | Except.error _ =>
    [Effect.ackErrors [("action_select_block", "An error occurred. Please try again.")]]
  | Except.ok selected_action =>
    match dictGet action_data selected_action with
    | none => [Effect.ackErrors [("action_select_block", "Invalid action selected")]]
    | some _ =>
      match create_action_modal action_data selected_action with
      | some (modal, _) => [Effect.ackUpdate modal]
      | none =>
        [Effect.ackErrors [("action_select_block", "An error occurred. Please try again.")]]

/-! ## Selection form construction (`open_modal`, main.py lines 236-281) -/

/-- The `sorted(action_data.keys())` of `open_modal`: the registry's keys in
Python's sorted order (lexicographic by code point, which is the order of
`LinearOrder String`). -/
def sorted_action_names (action_data : List (String × Json)) : List String :=
  (action_data.map Prod.fst).mergeSort (fun a b => decide (a ≤ b))

/-- One entry of the static-select `options` list: text and value are both the
action name. -/
def selection_option (action_name : String) : Json :=
  Json.obj [("text", Json.obj [("type", Json.str "plain_text"), ("text", Json.str action_name)]),
            ("value", Json.str action_name)]

/-- The `options` list of the selection form. -/
def selection_options (action_data : List (String × Json)) : List Json :=
  (sorted_action_names action_data).map selection_option

/-- The `modal_view` dictionary built by `open_modal` and passed to
`client.views_open`. -/
def open_modal_view (action_data : List (String × Json)) : Json :=
  Json.obj
    [("type", Json.str "modal"),
     ("callback_id", Json.str "initial_modal"),
     ("title", Json.obj [("type", Json.str "plain_text"), ("text", Json.str "Senora Self-Service")]),
     ("submit", Json.obj [("type", Json.str "plain_text"), ("text", Json.str "Next")]),
     ("close", Json.obj [("type", Json.str "plain_text"), ("text", Json.str "Cancel")]),
     ("blocks", Json.arr
       [Json.obj [("type", Json.str "section"),
          ("text", Json.obj [("type", Json.str "mrkdwn"), ("text", Json.str "Select an action to perform:")])],
        Json.obj [("type", Json.str "input"),
          ("block_id", Json.str "action_select_block"),
          ("element", Json.obj
            [("type", Json.str "static_select"),
             ("action_id", Json.str "action_select"),
             ("placeholder", Json.obj [("type", Json.str "plain_text"), ("text", Json.str "Choose an action...")]),
             ("options", Json.arr (selection_options action_data))]),
          ("label", Json.obj [("type", Json.str "plain_text"), ("text", Json.str "Action")])]])]

/-- Extraction of the static-select `options` list out of the built selection
form, following its block structure. -/
def modal_options (view : Json) : Except String Json := do
  let blocks ← view.getItem "blocks"
  match blocks with
  | Json.arr bs =>
    match bs with
    | _ :: input_block :: _ =>
      let element ← input_block.getItem "element"
      element.getItem "options"
    | _ => Except.error "blocks too short"
  | _ => Except.error "blocks is not an array"

/-! ## Notifier (`src/bot/src/slack_notifier/main.py`) -/

/-- The notification event received by the notifier Lambda. Each field is
`none` when absent from the payload. -/
structure NotifyEvent where
  notification_type : Option String
  message : Option String
  user_id : Option String
  channel : Option String
  thread_ts : Option String

/-- One delivery call to Slack `chat_postMessage`: target channel, optional
`thread_ts` (present only for thread replies) and text. `mrkdwn=True` is
constant and elided. -/
inductive NotifyEffect where
  | chatPost (channel : String) (thread_ts : Option String) (text : String)
deriving DecidableEq, Repr

/-- Outcomes of the notifier's external calls: `get_client` is the lazy Slack
client initialisation (Secrets Manager fetch), `chat_postMessage` the delivery
call; an error value models the call raising. -/
structure NotifierOracle where
  get_client : Except String Unit
  chat_postMessage : String → Option String → String → Except String Json

/-- Translation of `send_direct_message` (notifier main.py lines 48-76): obtain
the client, then post to the user's channel; the attempt is recorded in the
trace even when the call raises, and the exception propagates to the caller. -/
def send_direct_message (o : NotifierOracle) (user_id message : String) :
    List NotifyEffect × Except String Json :=
  match o.get_client with
  | Except.error e => ([], Except.error e)
  | Except.ok _ =>
    match o.chat_postMessage user_id none message with
    | Except.ok response => ([NotifyEffect.chatPost user_id none message], Except.ok response)
    | Except.error e => ([NotifyEffect.chatPost user_id none message], Except.error e)

/-- Translation of `send_thread_reply` (notifier main.py lines 80-110). -/
def send_thread_reply (o : NotifierOracle) (channel thread_ts message : String) :
    List NotifyEffect × Except String Json :=
  match o.get_client with
  | Except.error e => ([], Except.error e)
  | Except.ok _ =>
    match o.chat_postMessage channel (some thread_ts) message with
    | Except.ok response =>
      ([NotifyEffect.chatPost channel (some thread_ts) message], Except.ok response)
    | Except.error e =>
      ([NotifyEffect.chatPost channel (some thread_ts) message], Except.error e)

/-- Status code and JSON body returned by a Lambda handler. -/
structure HandlerResponse where
  statusCode : Nat
  body : Json

/-- Translation of the notifier's `lambda_handler` (notifier main.py lines
115-196): defaults `notification_type` to `"direct-message"` when the field is
absent, requires a truthy (non-empty) `message`, dispatches on the type with
truthiness checks of the mode-specific target fields (absent or empty both
fail), and maps a raised delivery error to status 500. The second component is
the trace of delivery attempts. -/
def notifier_lambda_handler (o : NotifierOracle) (event : NotifyEvent) :
    HandlerResponse × List NotifyEffect :=
  let notification_type := event.notification_type.getD "direct-message"
  let message := event.message.getD ""
  if message = "" then
    (⟨400, Json.obj [("error", Json.str "Message is required")]⟩, [])
  else if notification_type = "direct-message" then
    match event.user_id with
    | none =>
      (⟨400, Json.obj [("error", Json.str "user_id is required for direct messages")]⟩, [])
    | some user_id =>
      if user_id = "" then
        (⟨400, Json.obj [("error", Json.str "user_id is required for direct messages")]⟩, [])
      else
        match send_direct_message o user_id message with
        | (effects, Except.ok response) =>
          (⟨200, Json.obj [("message", Json.str "Notification sent"), ("response", response)]⟩,
           effects)
        | (effects, Except.error e) =>
          (⟨500, Json.obj [("error", Json.str e)]⟩, effects)
  else if notification_type = "in-thread" then
    match event.channel, event.thread_ts with
    | some channel, some thread_ts =>
      if channel = "" || thread_ts = "" then
        (⟨400, Json.obj [("error", Json.str "channel and thread_ts required for thread replies")]⟩,
         [])
      else
        match send_thread_reply o channel thread_ts message with
        | (effects, Except.ok response) =>
          (⟨200, Json.obj [("message", Json.str "Notification sent"), ("response", response)]⟩,
           effects)
        | (effects, Except.error e) =>
          (⟨500, Json.obj [("error", Json.str e)]⟩, effects)
    | _, _ =>
      (⟨400, Json.obj [("error", Json.str "channel and thread_ts required for thread replies")]⟩,
       [])
  else
    (⟨400, Json.obj [("error", Json.str ("Invalid notification_type: " ++ notification_type))]⟩,
     [])

/-! ## Action Registry loader (`src/bot/src/slack_bot/blocks.py`) -/

/-- The ways reading and parsing an action's `modal.json` can fail:
`json.JSONDecodeError` (invalid JSON) or any other exception (for example an
unreadable file). -/
inductive LoadFailure where
  | jsonDecodeError (msg : String)
  | otherError (msg : String)
deriving DecidableEq

/-- One entry of the actions directory listing, as observed by
`load_actions`: its name, whether it is a directory, and — when a `modal.json`
file is present (`some`) — the outcome of opening and parsing it. -/
structure ActionEntry where
  name : String
  is_dir : Bool
  modal_json : Option (Except LoadFailure Json)

/-- Log records emitted by the loader. -/
inductive LogEntry where
  | warning (message : String)
  | error (message : String)
  | info (message : String)
deriving DecidableEq, Repr

/-- Python `name.startswith((".", "_"))` for the two one-character prefixes. -/
def hidden_name (s : String) : Bool :=
  match s.data with
  | [] => false
  | c :: _ => c = '.' || c = '_'

/-- The error record logged for a failed `modal.json`, split by except branch
as in blocks.py lines 51-54 (the invalid-JSON message names the file path
relative to the actions directory). -/
def load_failure_log (name : String) : LoadFailure → LogEntry
  | LoadFailure.jsonDecodeError msg =>
    LogEntry.error ("Invalid JSON in " ++ name ++ "/modal.json: " ++ msg)
  | LoadFailure.otherError msg =>
    LogEntry.error ("Error loading action " ++ name ++ ": " ++ msg)

/-- The `for action_path in actions_dir.iterdir()` loop of `load_actions`
(blocks.py lines 34-54), with the accumulated dict and log threaded through:
non-directories and hidden or private-prefixed names are skipped silently, a
missing `modal.json` is skipped with a warning, a failed load is skipped with
an error record, and a parsed modal is assigned into the dict. -/
def load_actions_loop : List ActionEntry → List (String × Json) → List LogEntry →
    List (String × Json) × List LogEntry
  | [], actions, log => (actions, log)
  | e :: rest, actions, log =>
    if !e.is_dir || hidden_name e.name then
      load_actions_loop rest actions log
    else
      match e.modal_json with
      | none =>
        load_actions_loop rest actions
          (log ++ [LogEntry.warning ("No modal.json found for action: " ++ e.name)])
      | some (Except.error f) =>
        load_actions_loop rest actions (log ++ [load_failure_log e.name f])
      | some (Except.ok modal_data) =>
        load_actions_loop rest (dictSet actions e.name modal_data)
          (log ++ [LogEntry.info ("Loaded action: " ++ e.name)])

/-- Translation of `load_actions` (blocks.py lines 19-57): `none` models a
missing actions directory (warning, empty mapping); otherwise the directory
listing is processed entry by entry and the load always runs to completion,
returning the mapping and the log. -/
def load_actions (dir_listing : Option (List ActionEntry)) :
    List (String × Json) × List LogEntry :=
  match dir_listing with
  | none => ([], [LogEntry.warning "Actions directory not found"])
  | some entries =>
    let r := load_actions_loop entries [] []
    (r.1, r.2 ++ [LogEntry.info ("Loaded " ++ toString r.1.length ++ " actions")])

/-- What one directory entry contributes to the loaded mapping: its parsed
modal when it is a non-hidden directory whose `modal.json` parses, nothing
otherwise. -/
def entry_load (e : ActionEntry) : Option Json :=
  if !e.is_dir || hidden_name e.name then none
  else
    match e.modal_json with
    | some (Except.ok modal_data) => some modal_data
    | _ => none

/-- The pairs a listing contributes to the loaded mapping, in order. -/
def loaded_pairs : List ActionEntry → List (String × Json)
  | [] => []
  | e :: rest =>
    match entry_load e with
    | some modal_data => (e.name, modal_data) :: loaded_pairs rest
    | none => loaded_pairs rest

/-- What one directory entry contributes to the log. -/
def entry_log (e : ActionEntry) : List LogEntry :=
  if !e.is_dir || hidden_name e.name then []
  else
    match e.modal_json with
    | none => [LogEntry.warning ("No modal.json found for action: " ++ e.name)]
    | some (Except.error f) => [load_failure_log e.name f]
    | some (Except.ok _) => [LogEntry.info ("Loaded action: " ++ e.name)]

/-- The log records a listing contributes, in order. -/
def logs_of : List ActionEntry → List LogEntry
  | [] => []
  | e :: rest => entry_log e ++ logs_of rest

/-! ## Concrete fixtures -/

/-- Top-level fields of a loaded form template for an action named `deploy`. -/
def sampleTemplateFields : List (String × Json) :=
  [("type", Json.str "modal"),
   ("title", Json.obj [("type", Json.str "plain_text"), ("text", Json.str "Deploy")]),
   ("submit", Json.obj [("type", Json.str "plain_text"), ("text", Json.str "Run")])]

/-- A loaded form template, as `modal.json` of an action named `deploy`. -/
def sampleTemplate : Json := Json.obj sampleTemplateFields

/-- A small loaded registry mapping. -/
def sampleRegistry : List (String × Json) :=
  [("deploy", sampleTemplate), ("backup", Json.obj [("type", Json.str "modal")])]

/-- A final-submission request body with the invoking user's identity. -/
def sampleBody : Json :=
  Json.obj [("user", Json.obj [("id", Json.str "U1"), ("name", Json.str "alice")]),
            ("trigger_id", Json.str "T1")]

/-- A follow-up view whose correlation token names an action absent from
`sampleRegistry`. -/
def staleView : Json := Json.obj [("private_metadata", Json.str "ghost")]

/-- A follow-up view whose correlation token is `deploy`. -/
def deployView : Json := Json.obj [("private_metadata", Json.str "deploy")]

/-- An oracle on which every external call succeeds; `start_build` answers with
a build of id `build-1`. -/
def okOracle : SlackOracle :=
  ⟨fun _ _ => Except.ok Json.null,
   fun _ _ => Except.ok (Json.obj [("build", Json.obj [("id", Json.str "build-1")])])⟩

/-- An oracle whose `start_build` raises (for example the project is unknown or
access is denied); message posts succeed. -/
def failingBuildOracle : SlackOracle :=
  ⟨fun _ _ => Except.ok Json.null,
   fun _ _ => Except.error "An error occurred (ResourceNotFoundException) when calling the StartBuild operation"⟩

/-- A selection-step view in which `name` is the selected option's value. -/
def selectionView (name : String) : Json :=
  Json.obj [("state", Json.obj [("values", Json.obj
    [("action_select_block", Json.obj [("action_select", Json.obj
      [("selected_option", Json.obj [("value", Json.str name)])])])])])]

/-- The modal fields produced by `create_action_modal` from a stored template's
fields: the copy with `callback_id` and `private_metadata` assigned. -/
def action_modal_fields (fields : List (String × Json)) (action_name : String) :
    List (String × Json) :=
  dictSet (dictSet (dictCopy fields) "callback_id" (Json.str "updated_modal"))
    "private_metadata" (Json.str action_name)

/-- The in-thread notification event of the spec's example, with no `channel`
and no `thread_ts`. -/
def inThreadNoTargetEvent : NotifyEvent := ⟨some "in-thread", some "done", none, none, none⟩

/-- The unknown-discriminator notification event of the spec's example. -/
def bogusTypeEvent : NotifyEvent := ⟨some "bogus", some "x", some "U1", none, none⟩

/-- A notification event that omits `notification_type` entirely. -/
def noTypeEvent : NotifyEvent := ⟨none, some "hi", some "U1", none, none⟩

/-- A notifier oracle on which client initialisation and delivery succeed. -/
def okNotifierOracle : NotifierOracle := ⟨Except.ok (), fun _ _ _ => Except.ok Json.null⟩

/-- A directory listing containing a valid action, a malformed `modal.json`,
and a stray file. -/
def sampleEntries : List ActionEntry :=
  [⟨"deploy", true, some (Except.ok sampleTemplate)⟩,
   ⟨"broken", true, some (Except.error (LoadFailure.jsonDecodeError "Expecting value: line 1 column 1 (char 0)"))⟩,
   ⟨"notes.txt", false, none⟩]

/-! ## Dictionary lemmas -/

theorem dictGet_dictSet_self {α : Type} (d : List (String × α)) (k : String) (v : α) :
    dictGet (dictSet d k v) k = some v := by
  induction d with
  | nil => simp [dictGet, dictSet]
  | cons hd tl ih =>
    obtain ⟨k1, v1⟩ := hd
    by_cases h : k1 = k <;> simp [dictGet, dictSet, h, ih]

theorem dictGet_dictSet_ne {α : Type} (d : List (String × α)) (k k2 : String) (v : α)
    (h : k2 ≠ k) : dictGet (dictSet d k v) k2 = dictGet d k2 := by
  have hne : ¬ k = k2 := fun he => h he.symm
  induction d with
  | nil => simp [dictGet, dictSet, hne]
  | cons hd tl ih =>
    obtain ⟨k1, v1⟩ := hd
    by_cases h1 : k1 = k
    · subst h1
      simp [dictGet, dictSet, hne]
    · by_cases h2 : k1 = k2
      · subst h2
        simp [dictGet, dictSet, h1]
      · simp [dictGet, dictSet, h1, h2, ih]

theorem dictGet_append {α : Type} (d1 d2 : List (String × α)) (k : String) :
    dictGet (d1 ++ d2) k = ((dictGet d1 k).or (dictGet d2 k)) := by
  induction d1 with
  | nil => simp [dictGet]
  | cons hd tl ih =>
    obtain ⟨k1, v⟩ := hd
    by_cases h : k1 = k <;> simp [dictGet, h, ih]

theorem dictSet_fresh {α : Type} (d : List (String × α)) (k : String) (v : α)
    (h : dictGet d k = none) : dictSet d k v = d ++ [(k, v)] := by
  induction d with
  | nil => simp [dictSet]
  | cons hd tl ih =>
    obtain ⟨k1, v1⟩ := hd
    by_cases h1 : k1 = k
    · simp [dictGet, h1] at h
    · simp [dictGet, dictSet, h1] at h ⊢
      exact ih h

/-! ## Claim C2 -/

/-- Claim C2: for every selection-step submission whose selected action name is
not a key of the loaded registry mapping, the handler responds with the
field-level validation error (`response_action "errors"` on
`action_select_block`) and the job trigger is never invoked for that
submission (no `startBuild` effect occurs). -/
theorem initial_submission_unknown_action_rejected
    (action_data : List (String × Json)) (view : Json) (selected : String)
    (hsel : extract_selected_action view = Except.ok selected)
    (habs : dictGet action_data selected = none) :
    handle_initial_modal_submission action_data view =
      [Effect.ackErrors [("action_select_block", "Invalid action selected")]]
    ∧ ∀ pn vars, Effect.startBuild pn vars ∉ handle_initial_modal_submission action_data view := by
  have h : handle_initial_modal_submission action_data view =
      [Effect.ackErrors [("action_select_block", "Invalid action selected")]] := by
    simp [handle_initial_modal_submission, hsel, habs]
  refine ⟨h, ?_⟩
  intro pn vars
  rw [h]
  simp

/-- Witness for C2: selecting `ghost`, which is not in `sampleRegistry`,
yields exactly the field-level validation error. -/
theorem initial_submission_unknown_action_rejected_witness :
    extract_selected_action (selectionView "ghost") = Except.ok "ghost"
    ∧ dictGet sampleRegistry "ghost" = none
    ∧ handle_initial_modal_submission sampleRegistry (selectionView "ghost") =
        [Effect.ackErrors [("action_select_block", "Invalid action selected")]] :=
  ⟨rfl, rfl, (initial_submission_unknown_action_rejected sampleRegistry (selectionView "ghost")
    "ghost" rfl rfl).1⟩

/-! ## Claim C10 -/

/-- Claim C10: for every action name present in the registry,
`create_action_modal` returns a copy of the stored template whose
`callback_id` is `updated_modal` and whose `private_metadata` is the action
name — and differing from the stored fields at no other top-level key — while
the registry mapping after the call is unchanged, so no top-level key of the
stored template for that action is added, removed, or modified. -/
theorem create_action_modal_spec
    (action_data : List (String × Json)) (action_name : String)
    (fields : List (String × Json))
    (h : dictGet action_data action_name = some (Json.obj fields)) :
    create_action_modal action_data action_name =
      some (Json.obj (action_modal_fields fields action_name), action_data)
    ∧ dictGet (action_modal_fields fields action_name) "callback_id"
        = some (Json.str "updated_modal")
    ∧ dictGet (action_modal_fields fields action_name) "private_metadata"
        = some (Json.str action_name)
    ∧ ∀ k, k ≠ "callback_id" → k ≠ "private_metadata" →
        dictGet (action_modal_fields fields action_name) k = dictGet fields k := by
  refine ⟨by simp [create_action_modal, h, action_modal_fields], ?_, ?_, ?_⟩
  · unfold action_modal_fields
    rw [dictGet_dictSet_ne _ _ _ _ (by decide)]
    exact dictGet_dictSet_self _ _ _
  · exact dictGet_dictSet_self _ _ _
  · intro k h1 h2
    unfold action_modal_fields dictCopy
    rw [dictGet_dictSet_ne _ _ _ _ h2, dictGet_dictSet_ne _ _ _ _ h1]

/-- Witness for C10 on the stored `deploy` template of `sampleRegistry`. -/
theorem create_action_modal_spec_witness :
    create_action_modal sampleRegistry "deploy" =
      some (Json.obj (action_modal_fields sampleTemplateFields "deploy"), sampleRegistry)
    ∧ dictGet (action_modal_fields sampleTemplateFields "deploy") "callback_id"
        = some (Json.str "updated_modal")
    ∧ dictGet (action_modal_fields sampleTemplateFields "deploy") "private_metadata"
        = some (Json.str "deploy") :=
  ⟨(create_action_modal_spec sampleRegistry "deploy" sampleTemplateFields rfl).1,
   (create_action_modal_spec sampleRegistry "deploy" sampleTemplateFields rfl).2.1,
   (create_action_modal_spec sampleRegistry "deploy" sampleTemplateFields rfl).2.2.1⟩

/-! ## Claim C6 -/

/-- Claim C6: every notification event of type `in-thread` in which `channel`
or `thread_ts` is missing makes the notifier handler return status 400, and no
message-delivery call to the chat platform is attempted. -/
theorem notifier_in_thread_missing_target (o : NotifierOracle) (event : NotifyEvent)
    (htype : event.notification_type = some "in-thread")
    (hmiss : event.channel = none ∨ event.thread_ts = none) :
    (notifier_lambda_handler o event).1.statusCode = 400
    ∧ (notifier_lambda_handler o event).2 = [] := by
  by_cases hm : event.message.getD "" = ""
  · simp [notifier_lambda_handler, htype, hm]
  · rcases hmiss with h | h
    · cases ht : event.thread_ts <;>
        simp [notifier_lambda_handler, htype, hm, h, ht]
    · cases hc : event.channel <;>
        simp [notifier_lambda_handler, htype, hm, h, hc]

/-- Witness for C6 at the spec's example event
(`notification_type` `in-thread`, `message` `done`, no targets). -/
theorem notifier_in_thread_missing_target_witness :
    inThreadNoTargetEvent.notification_type = some "in-thread"
    ∧ (notifier_lambda_handler okNotifierOracle inThreadNoTargetEvent).1.statusCode = 400
    ∧ (notifier_lambda_handler okNotifierOracle inThreadNoTargetEvent).2 = [] :=
  ⟨rfl, notifier_in_thread_missing_target okNotifierOracle inThreadNoTargetEvent rfl (Or.inl rfl)⟩

/-! ## Claim C7 -/

/-- Claim C7: every notification event whose `notification_type` field is
present but is neither `direct-message` nor `in-thread` makes the notifier
handler return status 400, with no delivery attempted. -/
theorem notifier_invalid_type_rejected (o : NotifierOracle) (event : NotifyEvent)
    (nt : String)
    (htype : event.notification_type = some nt)
    (h1 : nt ≠ "direct-message") (h2 : nt ≠ "in-thread") :
    (notifier_lambda_handler o event).1.statusCode = 400
    ∧ (notifier_lambda_handler o event).2 = [] := by
  by_cases hm : event.message.getD "" = "" <;>
    simp [notifier_lambda_handler, htype, hm, h1, h2]

/-- Witness for C7 at the spec's example event with `notification_type`
`bogus`. -/
theorem notifier_invalid_type_rejected_witness :
    bogusTypeEvent.notification_type = some "bogus"
    ∧ (notifier_lambda_handler okNotifierOracle bogusTypeEvent).1.statusCode = 400
    ∧ (notifier_lambda_handler okNotifierOracle bogusTypeEvent).2 = [] :=
  ⟨rfl, notifier_invalid_type_rejected okNotifierOracle bogusTypeEvent "bogus" rfl
    (by decide) (by decide)⟩

/-! ## Claim C9 -/

/-- Claim C9: every notification event that omits `notification_type` entirely
is treated as a direct-message request: with a truthy `user_id` and a
non-empty `message` present and the delivery call succeeding, the handler
attempts exactly the direct-message delivery and returns status 200 rather
than rejecting with 400. -/
theorem notifier_missing_type_defaults_to_dm (o : NotifierOracle) (event : NotifyEvent)
    (uid msg : String) (resp : Json)
    (htype : event.notification_type = none)
    (hmsg : event.message = some msg) (hne : msg ≠ "")
    (huid : event.user_id = some uid) (hune : uid ≠ "")
    (hclient : o.get_client = Except.ok ())
    (hdm : o.chat_postMessage uid none msg = Except.ok resp) :
    (notifier_lambda_handler o event).1.statusCode = 200
    ∧ (notifier_lambda_handler o event).2 = [NotifyEffect.chatPost uid none msg] := by
  simp [notifier_lambda_handler, htype, hmsg, hne, huid, hune, send_direct_message,
    hclient, hdm]

/-- Witness for C9 at a concrete event with no `notification_type` field. -/
theorem notifier_missing_type_defaults_to_dm_witness :
    noTypeEvent.notification_type = none
    ∧ (notifier_lambda_handler okNotifierOracle noTypeEvent).1.statusCode = 200
    ∧ (notifier_lambda_handler okNotifierOracle noTypeEvent).2 =
        [NotifyEffect.chatPost "U1" none "hi"] :=
  ⟨rfl, notifier_missing_type_defaults_to_dm okNotifierOracle noTypeEvent "U1" "hi" Json.null
    rfl rfl (by decide) rfl (by decide) rfl rfl⟩

/-! ## Claim C3 -/

/-- The Python `sorted` order: `mergeSort` under the lexicographic order on
strings produces a `≤`-sorted list. -/
theorem sorted_action_names_sorted (action_data : List (String × Json)) :
    (sorted_action_names action_data).Sorted (· ≤ ·) := by
  have h := @List.sorted_mergeSort String (fun a b => decide (a ≤ b))
    (fun a b c hab hbc => by
      simp only [decide_eq_true_eq] at *
      exact le_trans hab hbc)
    (fun a b => by simp [le_total]) (action_data.map Prod.fst)
  simpa [sorted_action_names, List.Sorted, decide_eq_true_eq] using h

/-- Sorting the registry keys permutes them. -/
theorem sorted_action_names_perm (action_data : List (String × Json)) :
    (sorted_action_names action_data).Perm (action_data.map Prod.fst) :=
  List.mergeSort_perm _ _

/-- Claim C3: for every loaded registry mapping (whose keys, coming from a
Python dict, are distinct), the selection form built on command invocation has
its option list equal to the sorted action names rendered as options — so the
list is sorted by action name (strictly), contains exactly one option per
distinct loaded action, and each option's value is that action's name. -/
theorem open_modal_options_sorted_complete
    (action_data : List (String × Json))
    (hnd : (action_data.map Prod.fst).Nodup) :
    modal_options (open_modal_view action_data) =
      Except.ok (Json.arr ((sorted_action_names action_data).map selection_option))
    ∧ (sorted_action_names action_data).Sorted (· < ·)
    ∧ (sorted_action_names action_data).Perm (action_data.map Prod.fst)
    ∧ (∀ name ∈ action_data.map Prod.fst, (sorted_action_names action_data).count name = 1)
    ∧ ∀ name, (selection_option name).getItem "value" = Except.ok (Json.str name) := by
  have hperm := sorted_action_names_perm action_data
  have hsortednd : (sorted_action_names action_data).Nodup := hperm.symm.nodup hnd
  refine ⟨rfl, ?_, hperm, ?_, fun name => rfl⟩
  · exact (sorted_action_names_sorted action_data).lt_of_le hsortednd
  · intro name hname
    rw [hperm.count_eq]
    exact List.count_eq_one_of_mem hnd hname

/-- Witness for C3 on a small registry with two (unsorted) keys. -/
theorem open_modal_options_sorted_complete_witness :
    (([("deploy", sampleTemplate), ("backup", Json.obj [])].map
        (Prod.fst (α := String) (β := Json))).Nodup)
    ∧ modal_options (open_modal_view [("deploy", sampleTemplate), ("backup", Json.obj [])]) =
        Except.ok (Json.arr ((sorted_action_names
          [("deploy", sampleTemplate), ("backup", Json.obj [])]).map selection_option))
    ∧ (sorted_action_names [("deploy", sampleTemplate), ("backup", Json.obj [])]).Sorted
        (· < ·) :=
  ⟨by decide,
   (open_modal_options_sorted_complete [("deploy", sampleTemplate), ("backup", Json.obj [])]
     (by decide)).1,
   (open_modal_options_sorted_complete [("deploy", sampleTemplate), ("backup", Json.obj [])]
     (by decide)).2.1⟩

/-! ## Job Trigger lemmas shared by the final-submission claims -/

/-- When the job-trigger call raises, `execute_action` records the attempted
`startBuild`, logs the failure with full detail, and re-raises. -/
theorem execute_action_error_eq (env : BotEnv) (o : SlackOracle) (action_name : String)
    (body user : Json) (uid uname e : String)
    (hu : body.getItem "user" = Except.ok user)
    (hid : user.getItemStr "id" = Except.ok uid)
    (hname : user.getItemStr "name" = Except.ok uname)
    (hsb : o.start_build (env.bot_name.getD "senora" ++ "-" ++ action_name)
        (code_build_env_vars body uid uname) = Except.error e) :
    execute_action env o action_name body =
      ([Effect.startBuild (env.bot_name.getD "senora" ++ "-" ++ action_name)
          (code_build_env_vars body uid uname),
        Effect.logError ("Failed to start CodeBuild project: " ++ e) true],
       Except.error e) := by
  simp [execute_action, hu, hid, hname, hsb]

/-- Whatever the trigger call's outcome, `execute_action` issues it: the
`startBuild` effect under the computed project name, carrying the computed
parameter list, is in its trace. -/
theorem execute_action_startBuild_mem (env : BotEnv) (o : SlackOracle) (action_name : String)
    (body user : Json) (uid uname : String)
    (hu : body.getItem "user" = Except.ok user)
    (hid : user.getItemStr "id" = Except.ok uid)
    (hname : user.getItemStr "name" = Except.ok uname) :
    Effect.startBuild (env.bot_name.getD "senora" ++ "-" ++ action_name)
      (code_build_env_vars body uid uname) ∈ (execute_action env o action_name body).1 := by
  simp only [execute_action, hu, hid, hname]
  cases hsb : o.start_build (env.bot_name.getD "senora" ++ "-" ++ action_name)
      (code_build_env_vars body uid uname) with
  | error e => simp
  | ok response =>
    cases hb : response.getItem "build" with
    | error e => simp [hb]
    | ok build_info =>
      cases hbi : build_info.getItemStr "id" with
      | error e => simp [hb, hbi]
      | ok build_id => simp [hb, hbi]

/-! ## Claim C4 -/

/-- Claim C4: for every action name and request body carrying the invoking
user's identity, the job trigger issues the external job start under the
computed name — the configured bot name (default `senora`) joined with a
hyphen to the action name — and its parameter set includes the JSON-serialized
request body, the user's id and the user's display name as separate string
parameters. -/
theorem execute_action_spec (env : BotEnv) (o : SlackOracle) (action_name : String)
    (body user : Json) (uid uname : String)
    (hu : body.getItem "user" = Except.ok user)
    (hid : user.getItemStr "id" = Except.ok uid)
    (hname : user.getItemStr "name" = Except.ok uname) :
    Effect.startBuild (env.bot_name.getD "senora" ++ "-" ++ action_name)
        (code_build_env_vars body uid uname) ∈ (execute_action env o action_name body).1
    ∧ ("REQUEST_BODY", Json.dumps body) ∈ code_build_env_vars body uid uname
    ∧ ("USER_ID", uid) ∈ code_build_env_vars body uid uname
    ∧ ("USER_NAME", uname) ∈ code_build_env_vars body uid uname :=
  ⟨execute_action_startBuild_mem env o action_name body user uid uname hu hid hname,
   by simp [code_build_env_vars], by simp [code_build_env_vars],
   by simp [code_build_env_vars]⟩

/-- Witness for C4 at a concrete submission of `deploy` by user `U1`. -/
theorem execute_action_spec_witness :
    Effect.startBuild "senora-deploy" (code_build_env_vars sampleBody "U1" "alice")
      ∈ (execute_action ⟨none⟩ okOracle "deploy" sampleBody).1
    ∧ ("REQUEST_BODY", Json.dumps sampleBody) ∈ code_build_env_vars sampleBody "U1" "alice"
    ∧ ("USER_ID", "U1") ∈ code_build_env_vars sampleBody "U1" "alice"
    ∧ ("USER_NAME", "alice") ∈ code_build_env_vars sampleBody "U1" "alice" :=
  execute_action_spec ⟨none⟩ okOracle "deploy" sampleBody
    (Json.obj [("id", Json.str "U1"), ("name", Json.str "alice")]) "U1" "alice" rfl rfl rfl

/-! ## Claim C1 -/

/-- Counterexample to claim C1 as stated: the registry `sampleRegistry` has no
action `ghost`, yet on a final submission whose correlation token is `ghost`
the handler does not fail cleanly — its trace contains the job-trigger call
under the stale computed name `senora-ghost`, and (when that external call
happens to succeed, e.g. a CodeBuild project of that name still exists after a
registry change) the full trace shows no error of any kind and even reports
the job handle to the user. The handler never consults the registry at the
follow-up step. -/
theorem updated_submission_stale_token_counterexample :
    dictGet sampleRegistry "ghost" = none
    ∧ handle_updated_modal_submission ⟨none⟩ okOracle sampleBody staleView =
        [Effect.ack,
         Effect.chatPostMessage "U1" (received_text "ghost"),
         Effect.startBuild "senora-ghost" (code_build_env_vars sampleBody "U1" "alice"),
         Effect.chatPostMessage "U1" (running_text "ghost" "build-1")]
    ∧ Effect.startBuild "senora-ghost" (code_build_env_vars sampleBody "U1" "alice")
        ∈ handle_updated_modal_submission ⟨none⟩ okOracle sampleBody staleView := by
  have h : handle_updated_modal_submission ⟨none⟩ okOracle sampleBody staleView =
      [Effect.ack,
       Effect.chatPostMessage "U1" (received_text "ghost"),
       Effect.startBuild "senora-ghost" (code_build_env_vars sampleBody "U1" "alice"),
       Effect.chatPostMessage "U1" (running_text "ghost" "build-1")] := rfl
  refine ⟨rfl, h, ?_⟩
  rw [h]
  simp

/-- Amended claim C1: the follow-up handler performs no registry lookup at all.
For every final submission whose correlation token and user identity fields
extract — whatever the registry holds, resolving or not — it proceeds to
invoke the job trigger under the computed name built from the (possibly
stale) token; the session fails only if that external call itself fails. -/
theorem updated_submission_triggers_with_carried_token
    (env : BotEnv) (o : SlackOracle) (body view : Json) (action_name : String)
    (user : Json) (uid uname : String) (r : Json)
    (hmeta : view.getItemStr "private_metadata" = Except.ok action_name)
    (hu : body.getItem "user" = Except.ok user)
    (hid : user.getItemStr "id" = Except.ok uid)
    (hname : user.getItemStr "name" = Except.ok uname)
    (hpost : o.chat_postMessage uid (received_text action_name) = Except.ok r) :
    Effect.startBuild (env.bot_name.getD "senora" ++ "-" ++ action_name)
      (code_build_env_vars body uid uname)
      ∈ handle_updated_modal_submission env o body view := by
  have hbuid : body_user_id body = Except.ok uid := by simp [body_user_id, hu, hid]
  have hmem := execute_action_startBuild_mem env o action_name body user uid uname hu hid hname
  simp only [handle_updated_modal_submission, hmeta, hbuid, hpost]
  simp only [List.mem_cons, List.mem_append]
  exact Or.inr (Or.inr (Or.inl hmem))

/-- Witness for the amended C1, at the same stale-token submission as the
counterexample. -/
theorem updated_submission_triggers_with_carried_token_witness :
    staleView.getItemStr "private_metadata" = Except.ok "ghost"
    ∧ Effect.startBuild "senora-ghost" (code_build_env_vars sampleBody "U1" "alice")
        ∈ handle_updated_modal_submission ⟨none⟩ okOracle sampleBody staleView :=
  ⟨rfl, updated_submission_triggers_with_carried_token ⟨none⟩ okOracle sampleBody staleView
    "ghost" (Json.obj [("id", Json.str "U1"), ("name", Json.str "alice")]) "U1" "alice"
    Json.null rfl rfl rfl rfl rfl⟩

/-! ## Claim C5 -/

/-- Claim C5: for every failure of the job-trigger call on final submission,
the handler's whole trace is determined — the user receives exactly one
failure message, whose text is the fixed generic template around `str(e)`
(the exception's one-line short description, the only error content shown),
no job handle is ever posted, and the full error detail goes only to the
operational log (the two `logError` records with `exc_info = true`). -/
theorem updated_submission_trigger_failure_generic
    (env : BotEnv) (o : SlackOracle) (body view : Json) (action_name : String)
    (user : Json) (uid uname e : String) (r : Json)
    (hmeta : view.getItemStr "private_metadata" = Except.ok action_name)
    (hu : body.getItem "user" = Except.ok user)
    (hid : user.getItemStr "id" = Except.ok uid)
    (hname : user.getItemStr "name" = Except.ok uname)
    (hpost : o.chat_postMessage uid (received_text action_name) = Except.ok r)
    (hsb : o.start_build (env.bot_name.getD "senora" ++ "-" ++ action_name)
        (code_build_env_vars body uid uname) = Except.error e) :
    handle_updated_modal_submission env o body view =
      [Effect.ack,
       Effect.chatPostMessage uid (received_text action_name),
       Effect.startBuild (env.bot_name.getD "senora" ++ "-" ++ action_name)
         (code_build_env_vars body uid uname),
       Effect.logError ("Failed to start CodeBuild project: " ++ e) true,
       Effect.logError ("Error executing action: " ++ e) true,
       Effect.chatPostMessage uid (failure_text e)]
    ∧ failure_text e =
        "❌ Failed to execute action: " ++ e ++ "\nPlease contact support if this continues." := by
  have hbuid : body_user_id body = Except.ok uid := by simp [body_user_id, hu, hid]
  have hexec := execute_action_error_eq env o action_name body user uid uname e hu hid hname hsb
  refine ⟨?_, rfl⟩
  simp [handle_updated_modal_submission, hmeta, hbuid, hpost, hexec,
    updated_except_branch, hu]

/-- Witness for C5: a concrete final submission of `deploy` on which the
job-trigger call raises. -/
theorem updated_submission_trigger_failure_generic_witness :
    failingBuildOracle.start_build "senora-deploy" (code_build_env_vars sampleBody "U1" "alice") =
      Except.error "An error occurred (ResourceNotFoundException) when calling the StartBuild operation"
    ∧ handle_updated_modal_submission ⟨none⟩ failingBuildOracle sampleBody deployView =
        [Effect.ack,
         Effect.chatPostMessage "U1" (received_text "deploy"),
         Effect.startBuild "senora-deploy" (code_build_env_vars sampleBody "U1" "alice"),
         Effect.logError ("Failed to start CodeBuild project: An error occurred (ResourceNotFoundException) when calling the StartBuild operation") true,
         Effect.logError ("Error executing action: An error occurred (ResourceNotFoundException) when calling the StartBuild operation") true,
         Effect.chatPostMessage "U1"
           (failure_text "An error occurred (ResourceNotFoundException) when calling the StartBuild operation")]
    ∧ failure_text "An error occurred (ResourceNotFoundException) when calling the StartBuild operation" =
        "❌ Failed to execute action: An error occurred (ResourceNotFoundException) when calling the StartBuild operation\nPlease contact support if this continues." :=
  ⟨rfl,
   (updated_submission_trigger_failure_generic ⟨none⟩ failingBuildOracle sampleBody deployView
     "deploy" (Json.obj [("id", Json.str "U1"), ("name", Json.str "alice")]) "U1" "alice"
     "An error occurred (ResourceNotFoundException) when calling the StartBuild operation"
     Json.null rfl rfl rfl rfl rfl rfl).1,
   (updated_submission_trigger_failure_generic ⟨none⟩ failingBuildOracle sampleBody deployView
     "deploy" (Json.obj [("id", Json.str "U1"), ("name", Json.str "alice")]) "U1" "alice"
     "An error occurred (ResourceNotFoundException) when calling the StartBuild operation"
     Json.null rfl rfl rfl rfl rfl rfl).2⟩


/-! ## Loader lemmas -/

/-- The loop's log output is the input log followed by each entry's records,
in order. -/
theorem load_actions_loop_snd (entries : List ActionEntry) :
    ∀ acc log, (load_actions_loop entries acc log).2 = log ++ logs_of entries := by
  induction entries with
  | nil => intro acc log; simp [load_actions_loop, logs_of]
  | cons e rest ih =>
    intro acc log
    by_cases hskip : (!e.is_dir || hidden_name e.name) = true
    · simp [load_actions_loop, hskip, logs_of, entry_log, ih]
    · cases hm : e.modal_json with
      | none => simp [load_actions_loop, hskip, hm, logs_of, entry_log, ih]
      | some x =>
        cases x with
        | error f => simp [load_actions_loop, hskip, hm, logs_of, entry_log, ih]
        | ok j => simp [load_actions_loop, hskip, hm, logs_of, entry_log, ih]

/-- The loop's mapping output is the accumulator followed by the listing's
loadable pairs, provided the entry names are fresh for the accumulator and
distinct among themselves (as directory entry names are). -/
theorem load_actions_loop_fst (entries : List ActionEntry) :
    ∀ acc log, (entries.map ActionEntry.name).Nodup →
      (∀ e ∈ entries, dictGet acc e.name = none) →
      (load_actions_loop entries acc log).1 = acc ++ loaded_pairs entries := by
  induction entries with
  | nil => intro acc log _ _; simp [load_actions_loop, loaded_pairs]
  | cons e rest ih =>
    intro acc log hnd hfresh
    rw [List.map_cons, List.nodup_cons] at hnd
    have hfresh2 : ∀ e2 ∈ rest, dictGet acc e2.name = none :=
      fun e2 he2 => hfresh e2 (List.mem_cons_of_mem _ he2)
    by_cases hskip : (!e.is_dir || hidden_name e.name) = true
    · rw [show load_actions_loop (e :: rest) acc log = load_actions_loop rest acc log from by
        simp [load_actions_loop, hskip]]
      rw [show loaded_pairs (e :: rest) = loaded_pairs rest from by
        simp [loaded_pairs, entry_load, hskip]]
      exact ih acc log hnd.2 hfresh2
    · cases hm : e.modal_json with
      | none =>
        rw [show load_actions_loop (e :: rest) acc log = load_actions_loop rest acc
            (log ++ [LogEntry.warning ("No modal.json found for action: " ++ e.name)]) from by
          simp [load_actions_loop, hskip, hm]]
        rw [show loaded_pairs (e :: rest) = loaded_pairs rest from by
          simp [loaded_pairs, entry_load, hskip, hm]]
        exact ih _ _ hnd.2 hfresh2
      | some x =>
        cases x with
        | error f =>
          rw [show load_actions_loop (e :: rest) acc log = load_actions_loop rest acc
              (log ++ [load_failure_log e.name f]) from by
            simp [load_actions_loop, hskip, hm]]
          rw [show loaded_pairs (e :: rest) = loaded_pairs rest from by
            simp [loaded_pairs, entry_load, hskip, hm]]
          exact ih _ _ hnd.2 hfresh2
        | ok j =>
          have hfr := hfresh e (List.mem_cons_self _ _)
          rw [show load_actions_loop (e :: rest) acc log = load_actions_loop rest
              (dictSet acc e.name j)
              (log ++ [LogEntry.info ("Loaded action: " ++ e.name)]) from by
            simp [load_actions_loop, hskip, hm]]
          rw [show loaded_pairs (e :: rest) = (e.name, j) :: loaded_pairs rest from by
            simp [loaded_pairs, entry_load, hskip, hm]]
          rw [dictSet_fresh acc e.name j hfr]
          have hfresh3 : ∀ e2 ∈ rest, dictGet (acc ++ [(e.name, j)]) e2.name = none := by
            intro e2 he2
            have hne : ¬ e.name = e2.name := fun hh =>
              hnd.1 (hh ▸ List.mem_map_of_mem ActionEntry.name he2)
            rw [dictGet_append]
            simp [hfresh2 e2 he2, dictGet, hne]
          rw [ih _ _ hnd.2 hfresh3]
          simp

/-- A name carried by no entry of the listing is absent from the loaded
mapping. -/
theorem dictGet_loaded_pairs_absent (n : String) :
    ∀ entries : List ActionEntry, (∀ e ∈ entries, e.name ≠ n) →
      dictGet (loaded_pairs entries) n = none := by
  intro entries
  induction entries with
  | nil => intro _; simp [loaded_pairs, dictGet]
  | cons e rest ih =>
    intro h
    have hrest := fun e2 he2 => h e2 (List.mem_cons_of_mem _ he2)
    cases hm : entry_load e with
    | none => simpa [loaded_pairs, hm] using ih hrest
    | some j =>
      have hne := h e (List.mem_cons_self _ _)
      simpa [loaded_pairs, hm, dictGet, hne] using ih hrest

/-- A loadable entry of a distinctly named listing is found in the loaded
mapping under its name, with its parsed modal. -/
theorem dictGet_loaded_pairs_of_entry (e : ActionEntry) (j : Json)
    (hj : entry_load e = some j) :
    ∀ entries : List ActionEntry, (entries.map ActionEntry.name).Nodup → e ∈ entries →
      dictGet (loaded_pairs entries) e.name = some j := by
  intro entries
  induction entries with
  | nil => intro _ he; cases he
  | cons e0 rest ih =>
    intro hnd he
    rw [List.map_cons, List.nodup_cons] at hnd
    rcases List.mem_cons.mp he with rfl | he2
    · simp [loaded_pairs, hj, dictGet]
    · have hne : ¬ e0.name = e.name := fun hh =>
        hnd.1 (hh ▸ List.mem_map_of_mem ActionEntry.name he2)
      cases hm : entry_load e0 with
      | none => simpa [loaded_pairs, hm] using ih hnd.2 he2
      | some j0 => simpa [loaded_pairs, hm, dictGet, hne] using ih hnd.2 he2

/-- A skipped entry of a distinctly named listing contributes nothing: its
name is absent from the loaded mapping. -/
theorem dictGet_loaded_pairs_of_entry_none (e : ActionEntry)
    (hj : entry_load e = none) :
    ∀ entries : List ActionEntry, (entries.map ActionEntry.name).Nodup → e ∈ entries →
      dictGet (loaded_pairs entries) e.name = none := by
  intro entries
  induction entries with
  | nil => intro _ he; cases he
  | cons e0 rest ih =>
    intro hnd he
    rw [List.map_cons, List.nodup_cons] at hnd
    rcases List.mem_cons.mp he with rfl | he2
    · have habs : ∀ e2 ∈ rest, e2.name ≠ e.name := by
        intro e2 he2 hh
        exact hnd.1 (hh ▸ List.mem_map_of_mem ActionEntry.name he2)
      simpa [loaded_pairs, hj] using dictGet_loaded_pairs_absent e.name rest habs
    · have hne : ¬ e0.name = e.name := fun hh =>
        hnd.1 (hh ▸ List.mem_map_of_mem ActionEntry.name he2)
      cases hm : entry_load e0 with
      | none => simpa [loaded_pairs, hm] using ih hnd.2 he2
      | some j0 => simpa [loaded_pairs, hm, dictGet, hne] using ih hnd.2 he2

/-- Any record contributed by a listed entry appears in the listing's log. -/
theorem mem_logs_of (x : LogEntry) (e : ActionEntry) (hx : x ∈ entry_log e) :
    ∀ entries : List ActionEntry, e ∈ entries → x ∈ logs_of entries := by
  intro entries
  induction entries with
  | nil => intro he; cases he
  | cons e0 rest ih =>
    intro he
    rcases List.mem_cons.mp he with rfl | he2
    · simp only [logs_of]
      exact List.mem_append_left _ hx
    · simp only [logs_of]
      exact List.mem_append_right _ (ih he2)

/-! ## Claim C8 -/

/-- Claim C8: for every candidate directory listing (with the distinct names a
real directory yields), `load_actions` runs to completion — it is a total
function — and a malformed action definition (invalid JSON or unreadable
file) causes only that entry to be skipped, with an error record in the log,
while every other valid action in the listing is still loaded into the
returned mapping under its name. -/
theorem load_actions_isolates_malformed (entries : List ActionEntry)
    (hnd : (entries.map ActionEntry.name).Nodup) :
    (load_actions (some entries)).1 = loaded_pairs entries
    ∧ (∀ e ∈ entries, e.is_dir = true → hidden_name e.name = false →
        ∀ j, e.modal_json = some (Except.ok j) →
          dictGet (load_actions (some entries)).1 e.name = some j)
    ∧ (∀ e ∈ entries, e.is_dir = true → hidden_name e.name = false →
        ∀ f, e.modal_json = some (Except.error f) →
          dictGet (load_actions (some entries)).1 e.name = none
          ∧ load_failure_log e.name f ∈ (load_actions (some entries)).2) := by
  have hfst : (load_actions (some entries)).1 = loaded_pairs entries := by
    show (load_actions_loop entries [] []).1 = loaded_pairs entries
    rw [load_actions_loop_fst entries [] [] hnd (fun e _ => rfl)]
    simp
  have hlog : ∀ x : LogEntry, x ∈ logs_of entries → x ∈ (load_actions (some entries)).2 := by
    intro x hx
    show x ∈ (load_actions_loop entries [] []).2 ++ _
    rw [load_actions_loop_snd entries [] []]
    exact List.mem_append_left _ hx
  refine ⟨hfst, ?_, ?_⟩
  · intro e he hdir hhid j hj
    rw [hfst]
    refine dictGet_loaded_pairs_of_entry e j ?_ entries hnd he
    simp [entry_load, hdir, hhid, hj]
  · intro e he hdir hhid f hf
    constructor
    · rw [hfst]
      refine dictGet_loaded_pairs_of_entry_none e ?_ entries hnd he
      simp [entry_load, hdir, hhid, hf]
    · apply hlog
      refine mem_logs_of _ e ?_ entries he
      simp [entry_log, hdir, hhid, hf]

/-- Witness for C8 at a concrete listing holding a valid action, a malformed
one, and a stray file: the valid one is loaded, the malformed one is skipped
with an error record. -/
theorem load_actions_isolates_malformed_witness :
    (sampleEntries.map ActionEntry.name).Nodup
    ∧ dictGet (load_actions (some sampleEntries)).1 "deploy" = some sampleTemplate
    ∧ dictGet (load_actions (some sampleEntries)).1 "broken" = none
    ∧ load_failure_log "broken"
        (LoadFailure.jsonDecodeError "Expecting value: line 1 column 1 (char 0)")
        ∈ (load_actions (some sampleEntries)).2 :=
  ⟨by decide,
   (load_actions_isolates_malformed sampleEntries (by decide)).2.1
     ⟨"deploy", true, some (Except.ok sampleTemplate)⟩ (List.mem_cons_self _ _) rfl rfl
     sampleTemplate rfl,
   ((load_actions_isolates_malformed sampleEntries (by decide)).2.2
     ⟨"broken", true,
      some (Except.error (LoadFailure.jsonDecodeError "Expecting value: line 1 column 1 (char 0)"))⟩
     (List.mem_cons_of_mem _ (List.mem_cons_self _ _)) rfl rfl
     (LoadFailure.jsonDecodeError "Expecting value: line 1 column 1 (char 0)") rfl).1,
   ((load_actions_isolates_malformed sampleEntries (by decide)).2.2
     ⟨"broken", true,
      some (Except.error (LoadFailure.jsonDecodeError "Expecting value: line 1 column 1 (char 0)"))⟩
     (List.mem_cons_of_mem _ (List.mem_cons_self _ _)) rfl rfl
     (LoadFailure.jsonDecodeError "Expecting value: line 1 column 1 (char 0)") rfl).2⟩
